import Mathlib

/-!
Shallow embedding of `src/dockerbuilderhelper.py` (jmaddington/dockerbuilderhelper).

The script reads a YAML configuration mapping environment names to environment
specs and shells out to docker / docker-compose.  We model:
  * an environment spec (`EnvConfig`) with exactly the dictionary keys the
    script reads (`env_config.get(...)` / `'key' in env_config`);
  * the parsed CLI arguments (`Args`), one field per `argparse` flag;
  * the filesystem (`os.path.exists`) as a predicate `fs : String → Bool`;
  * external processes (`subprocess.run`) as an oracle `Cmd → Bool` giving
    each spawned command's success (exit code 0) or failure;
  * each step as a pair: the list of commands actually spawned, and an
    optional abnormal outcome (`sys.exit(1)`, raised FileNotFoundError /
    KeyError / IndexError, or an uncaught CalledProcessError).

The health-check probes of lines 44-74 only select the compose base
invocation (`['docker-compose']` or `['docker', 'compose']`); the pipeline
model takes that base list as a parameter, exactly as `main` receives it
from `health_checks()`.
-/

set_option maxHeartbeats 1000000

namespace DockerBuilderHelper

/-- Python `str.split('=')` on a character list: splits at every `'='`,
keeping empty pieces, and yields a single piece when no `'='` occurs
(so `''.split('=') == ['']`). -/
def splitOnEq : List Char → List (List Char)
  | [] => [[]]
  | c :: rest =>
    if c = '=' then [] :: splitOnEq rest
    else
      match splitOnEq rest with
      | h :: t => (c :: h) :: t
      | [] => [[c]]

/-- Abnormal outcomes of a step of the script: a raised `FileNotFoundError`
(lines 86, 132), a raised `KeyError` (line 93), a raised `IndexError`
(`arg.split('=')[1]` at line 90 when the entry has no `'='`), a `sys.exit(n)`,
or an uncaught `subprocess.CalledProcessError` (line 277). -/
inductive Err where
  | fileNotFound (path : String)
  | keyError (v : String)
  | indexError
  | exitCode (n : Nat)
  | processError
deriving DecidableEq, Repr

/-- An external command: an argument vector passed to `subprocess.run(list)`,
or a raw shell string passed to `subprocess.run(cmd, shell=True)`. -/
inductive Cmd where
  | argv (args : List String)
  | shell (line : String)
deriving DecidableEq, Repr

/-- An environment spec: the dictionary stored under one name of the
`environments` mapping.  A field is `none`/default when the key is absent,
mirroring every `env_config.get(key, default)` and `'key' in env_config`
read performed by the script.  The `envfile` key appears in the repository's
data model but is never read by this script. -/
structure EnvConfig where
  dockerfile : Option String := none
  composefile : Option String := none
  envfile : Option String := none
  buildargs : Option (List String) := none
  platform : Option (List String) := none
  tag : Option String := none
  registry : Option String := none
  push : Bool := false
  no_cache : Bool := false
  buildonly : Bool := false
  interactive : Bool := false
  container : Option String := none
  composeargs : Option (List (String × String)) := none
  pre_build : Option (List String) := none
  post_build : Option (List String) := none
deriving DecidableEq, Repr

/-- The parsed CLI arguments (lines 193-206), one field per argparse flag. -/
structure Args where
  environment : Option String := none
  list : Bool := false
  remove : Option String := none
  remove_cache : Option String := none
  no_cache : Bool := false
  push : Bool := false
  platform : Option String := none
  buildonly : Bool := false
  verbose : Bool := false
  clean : Bool := false
  hard_clean : Bool := false
deriving DecidableEq, Repr

/-- The `environments` mapping of the configuration file, as an ordered
association list (Python dicts preserve insertion order and have unique
keys). -/
abbrev Config := List (String × EnvConfig)

/-- Result of one step: the commands spawned (in order) and the abnormal
outcome, `none` meaning the step completed normally. -/
abbrev StepRes := List Cmd × Option Err

/-- Line 90: `{arg.split('=')[0]: arg.split('=')[1] for arg in ...}` — each
entry is split at `'='`; indexing `[1]` raises `IndexError` when the entry
has no `'='`.  We keep the (key, value) pairs in order; dict key membership
coincides with membership in the key list. -/
def parseBuildArgs : List String → Except Err (List (List Char × List Char))
  | [] => .ok []
  | a :: rest =>
    match splitOnEq a.toList with
    | k :: v :: _ =>
      match parseBuildArgs rest with
      | .ok tail => .ok ((k, v) :: tail)
      | .error e => .error e
    | _ => .error .indexError

/-- Lines 96-110: construction of the `docker build` argument vector. -/
def build_command (env_config : EnvConfig) (no_cache : Bool) : List String :=
  ["docker", "build", "-f", env_config.dockerfile.getD "Dockerfile"]
    ++ (if no_cache then ["--no-cache"] else [])
    ++ (match env_config.buildargs with
        | some args => (args.map (fun arg => ["--build-arg", arg])).flatten
        | none => [])
    ++ (match env_config.platform with
        | some ps => ["--platform", String.intercalate "," ps]
        | none => [])
    ++ (match env_config.tag with
        | some t =>
          match env_config.push, env_config.registry with
          | true, some r => ["-t", r ++ "/" ++ t]
          | _, _ => ["-t", t]
        | none => [])
    ++ ["."]

/-- Run one external command with `check=True`: on failure the script logs
and calls `sys.exit(1)`. -/
def runCmd (oracle : Cmd → Bool) (c : Cmd) : StepRes :=
  if oracle c then ([c], none) else ([c], some (.exitCode 1))

/-- Lines 172-187, `execute_commands`: run each shell string in order with
`check=True`; the first failure logs and exits with code 1, skipping the
rest. -/
def execute_commands (oracle : Cmd → Bool) : List String → StepRes
  | [] => ([], none)
  | command :: rest =>
    if oracle (.shell command) then
      let r := execute_commands oracle rest
      (.shell command :: r.1, r.2)
    else ([.shell command], some (.exitCode 1))

/-- Lines 77-120, `build_image`: check the Dockerfile exists, parse the
build args and require `BUILD_ENV` among their keys, then run the
constructed build command. -/
def build_image (fs : String → Bool) (oracle : Cmd → Bool)
    (env_config : EnvConfig) (no_cache : Bool) : StepRes :=
  let dockerfile := env_config.dockerfile.getD "Dockerfile"
  if fs dockerfile = false then ([], some (.fileNotFound dockerfile))
  else
    match parseBuildArgs (env_config.buildargs.getD []) with
    | .error e => ([], some e)
    | .ok buildargs =>
      if "BUILD_ENV".toList ∈ buildargs.map Prod.fst then
        runCmd oracle (.argv (build_command env_config no_cache))
      else ([], some (.keyError "BUILD_ENV"))

/-- Lines 134-139: construction of the compose argument vector: the base
invocation, `-f <composefile>`, the `composeargs` flag/value pairs in
insertion order, then `up -d` (detached, unconditionally). -/
def compose_command (env_config : EnvConfig) (base : List String) : List String :=
  base ++ ["-f", env_config.composefile.getD "docker-compose.yml"]
    ++ (match env_config.composeargs with
        | some pairs => (pairs.map (fun p => [p.1, p.2])).flatten
        | none => [])
    ++ ["up", "-d"]

/-- Lines 123-149, `run_compose`: check the compose file exists, then run
the constructed compose command. -/
def run_compose (fs : String → Bool) (oracle : Cmd → Bool)
    (env_config : EnvConfig) (base : List String) : StepRes :=
  let compose_file := env_config.composefile.getD "docker-compose.yml"
  if fs compose_file = false then ([], some (.fileNotFound compose_file))
  else runCmd oracle (.argv (compose_command env_config base))

/-- The commands the push step spawns: a single `docker push registry/tag`
when both keys are present, nothing otherwise (lines 158-160). -/
def push_command (env_config : EnvConfig) : List Cmd :=
  match env_config.tag, env_config.registry with
  | some t, some r => [.argv ["docker", "push", r ++ "/" ++ t]]
  | _, _ => []

/-- Lines 152-169, `push_image`: when both `tag` and `registry` are present,
run `docker push <registry>/<tag>`; otherwise do nothing (no command, no
warning, no error). -/
def push_image (oracle : Cmd → Bool) (env_config : EnvConfig) : StepRes :=
  match env_config.tag, env_config.registry with
  | some t, some r => runCmd oracle (.argv ["docker", "push", r ++ "/" ++ t])
  | _, _ => ([], none)

/-- Lines 272-277: when `interactive` is set, exit 1 if `container` is
missing or empty (Python falsiness of `env_config.get('container')`),
otherwise run `docker exec -ti <container> bash` with `check=True` — a
failure there raises an uncaught `CalledProcessError`. -/
def interactive_shell (oracle : Cmd → Bool) (env_config : EnvConfig) : StepRes :=
  if env_config.interactive then
    let container := env_config.container.getD ""
    if container = "" then ([], some (.exitCode 1))
    else
      if oracle (.argv ["docker", "exec", "-ti", container, "bash"]) then
        ([.argv ["docker", "exec", "-ti", container, "bash"]], none)
      else ([.argv ["docker", "exec", "-ti", container, "bash"]], some .processError)
  else ([], none)

/-- Sequencing of two steps: the second runs only when the first completed
normally; its spawned commands follow the first's. -/
def seqStep (a : StepRes) (k : Unit → StepRes) : StepRes :=
  match a with
  | (cs, none) => (cs ++ (k ()).1, (k ()).2)
  | (cs, some e) => (cs, some e)

/-- Hook execution guarded by key presence: `if 'pre_build' in env_config:
execute_commands(env_config['pre_build'])` (lines 250-251, 268-269). -/
def hookStep (oracle : Cmd → Bool) (o : Option (List String)) : StepRes :=
  match o with
  | some cmds => execute_commands oracle cmds
  | none => ([], none)

/-- Line 260-261: run compose only when neither the CLI flag nor the spec
requests build-only mode. -/
def composeStep (fs : String → Bool) (oracle : Cmd → Bool)
    (env_config : EnvConfig) (args : Args) (base : List String) : StepRes :=
  if !args.buildonly && !env_config.buildonly
  then run_compose fs oracle env_config base
  else ([], none)

/-- Line 264-265: push only when the CLI flag or the spec requests it. -/
def pushStep (oracle : Cmd → Bool) (env_config : EnvConfig) (args : Args) : StepRes :=
  if args.push || env_config.push then push_image oracle env_config else ([], none)

/-- Lines 249-277 of `main`, after the environment is resolved and
`health_checks()` has selected the compose base invocation: pre-build
hooks, image build, compose up unless build-only (flag or spec), push if
requested (flag or spec), post-build hooks, interactive shell. -/
def mainPipeline (fs : String → Bool) (oracle : Cmd → Bool)
    (env_config : EnvConfig) (args : Args) (base : List String) : StepRes :=
  seqStep (hookStep oracle env_config.pre_build) fun _ =>
  seqStep (build_image fs oracle env_config (args.no_cache || env_config.no_cache)) fun _ =>
  seqStep (composeStep fs oracle env_config args base) fun _ =>
  seqStep (pushStep oracle env_config args) fun _ =>
  seqStep (hookStep oracle env_config.post_build) fun _ =>
  interactive_shell oracle env_config

/-- Exact-match lookup of an environment name in the configuration
(`args.environment in config['environments']` /
`config['environments'][name]`). -/
def lookupEnv : Config → String → Option EnvConfig
  | [], _ => none
  | (k, v) :: rest, name => if k = name then some v else lookupEnv rest name

/-- Key membership in the configuration (`name in config['environments']`). -/
def hasKey : Config → String → Bool
  | [], _ => false
  | (k, _) :: rest, name => k == name || hasKey rest name

/-- Deletion of a key from the configuration (`del config['environments'][name]`);
dict keys are unique, so removing every pair with that key models `del`. -/
def delKey : Config → String → Config
  | [], _ => []
  | (k, v) :: rest, name =>
    if k = name then delKey rest name else (k, v) :: delKey rest name

/-- Lines 217-226, the `--remove` branch: when the name is a key, delete it
and persist the configuration (returning `true`); otherwise report
"not found" and leave the configuration unchanged (returning `false`).
Neither branch exits with an error. -/
def removeEnv (config : Config) (name : String) : Config × Bool :=
  if hasKey config name then (delKey config name, true) else (config, false)

/-- Outcome of a whole run of `main`: the configuration as persisted on
disk afterwards, the spawned commands, and the abnormal outcome. -/
structure MainResult where
  config : Config
  spawned : List Cmd
  err : Option Err
deriving DecidableEq, Repr

/-- Lines 190-277, `main` after `load_config`: the `--list` branch spawns
nothing, the `--remove` branch updates the configuration, a missing or
unknown environment name exits with code 1 spawning nothing, and otherwise
the resolved spec drives the pipeline. -/
def mainRun (fs : String → Bool) (oracle : Cmd → Bool) (config : Config)
    (args : Args) (base : List String) : MainResult :=
  if args.list then { config := config, spawned := [], err := none }
  else
    match args.remove with
    | some name => { config := (removeEnv config name).1, spawned := [], err := none }
    | none =>
      match args.environment with
      | none => { config := config, spawned := [], err := some (.exitCode 1) }
      | some name =>
        match lookupEnv config name with
        | none => { config := config, spawned := [], err := some (.exitCode 1) }
        | some env_config =>
          let r := mainPipeline fs oracle env_config args base
          { config := config, spawned := r.1, err := r.2 }

/-- Step invariant used for the fatality analysis: every spawned command
except possibly the last succeeded, and a normally-completed step spawned
only successful commands. -/
def StepOK (oracle : Cmd → Bool) (s : StepRes) : Prop :=
  (∀ c ∈ s.1.dropLast, oracle c = true) ∧ (s.2 = none → ∀ c ∈ s.1, oracle c = true)

/-- Modelled from the spec's words for claim C2: base invocation,
`-f <composefile>`, optionally `--env-file <envfile>` (read here as: present
when the spec configures an envfile), the composeargs pairs, `up`, and `-d`
when detached mode is configured. -/
def claimedComposeCommand (env_config : EnvConfig) (base : List String)
    (detached : Bool) : List String :=
  base ++ ["-f", env_config.composefile.getD "docker-compose.yml"]
    ++ (match env_config.envfile with
        | some e => ["--env-file", e]
        | none => [])
    ++ (match env_config.composeargs with
        | some pairs => (pairs.map (fun p => [p.1, p.2])).flatten
        | none => [])
    ++ ["up"] ++ (if detached then ["-d"] else [])

/-- Modelled from the spec's words for claim C3: a tag-then-push command
pair, `docker tag <tag> <registry>/<tag>` followed by
`docker push <registry>/<tag>`. -/
def claimedPushCommands (t r : String) : List Cmd :=
  [.argv ["docker", "tag", t, r ++ "/" ++ t],
   .argv ["docker", "push", r ++ "/" ++ t]]

/-- Example spec configuring an envfile and nothing else. -/
def envfileCfg : EnvConfig := { envfile := some ".env" }

/-- Example spec with a tag and a registry. -/
def pushCfg : EnvConfig :=
  { tag := some "test:latest", registry := some "myregistry.com" }

/-- Example spec used to exercise the full pipeline. -/
def pipelineCfg : EnvConfig :=
  { buildargs := some ["BUILD_ENV=test"]
    tag := some "test:latest"
    pre_build := some ["echo pre"]
    post_build := some ["echo post"] }

/-- Example configuration with two environments. -/
def demoConfig : Config := [("test", pushCfg), ("other", {})]

/-- Example spec whose second buildargs entry has no `'='`. -/
def badArgCfg : EnvConfig := { buildargs := some ["BUILD_ENV=test", "NOEQUALS"] }

/-- Example spec whose buildargs parse but lack the required `BUILD_ENV`. -/
def fooCfg : EnvConfig := { buildargs := some ["FOO=1"] }

lemma buildargSeg (l : List String) :
    (l.map (fun arg => ["--build-arg", arg])).flatten
      = l.foldr (fun arg acc => "--build-arg" :: arg :: acc) [] := by
  induction l with
  | nil => rfl
  | cons a t ih => simp [ih]

lemma composeSeg (l : List (String × String)) :
    (l.map (fun p => [p.1, p.2])).flatten
      = l.foldr (fun p acc => p.1 :: p.2 :: acc) [] := by
  induction l with
  | nil => rfl
  | cons a t ih => simp [ih]

/-- C1: for every environment spec the constructed build command is exactly
`docker build -f <dockerfile>` (default `Dockerfile`), then `--no-cache` if
the CLI override or the spec requests it, then one `--build-arg KEY=VALUE`
pair per buildargs entry in original order, then the platform flag if
platform is present, then `-t <tag>` with the tag qualified by the registry
exactly when pushing to a registry, ending with the build context `.`; and
on the spec `{dockerfile: Dockerfile, buildargs: [BUILD_ENV=test],
tag: test:latest}` it yields
`docker build -f Dockerfile --build-arg BUILD_ENV=test -t test:latest .`. -/
theorem C1_build_command_shape :
    (∀ (env_config : EnvConfig) (no_cache : Bool),
      build_command env_config no_cache =
        ["docker", "build", "-f", env_config.dockerfile.getD "Dockerfile"]
          ++ (if no_cache then ["--no-cache"] else [])
          ++ (env_config.buildargs.getD []).foldr
              (fun arg acc => "--build-arg" :: arg :: acc) []
          ++ (if env_config.platform.isSome
              then ["--platform", String.intercalate "," (env_config.platform.getD [])]
              else [])
          ++ (if env_config.tag.isSome then
                (if env_config.push && env_config.registry.isSome
                 then ["-t", env_config.registry.getD "" ++ "/" ++ env_config.tag.getD ""]
                 else ["-t", env_config.tag.getD ""])
              else [])
          ++ ["."])
    ∧ build_command
        { dockerfile := some "Dockerfile"
          buildargs := some ["BUILD_ENV=test"]
          tag := some "test:latest" } false
        = ["docker", "build", "-f", "Dockerfile", "--build-arg", "BUILD_ENV=test",
           "-t", "test:latest", "."] := by
  constructor
  · intro cfg nc
    simp only [build_command]
    cases hba : cfg.buildargs <;> cases hpl : cfg.platform <;>
      cases htg : cfg.tag <;> cases hpu : cfg.push <;> cases hrg : cfg.registry <;>
      simp [buildargSeg, hba, hpl, htg, hpu, hrg]
  · rfl

/-- C2 counterexample: for a spec that configures `envfile` (and no detached
configuration beyond the defaults) the compose command contains no
`--env-file` at all and ends in an unconditional `-d`, so it differs from
the spec's claimed shape whichever way the detached option is resolved. -/
theorem C2_counterexample :
    envfileCfg.envfile = some ".env"
      ∧ compose_command envfileCfg ["docker-compose"]
          = ["docker-compose", "-f", "docker-compose.yml", "up", "-d"]
      ∧ "--env-file" ∉ compose_command envfileCfg ["docker-compose"]
      ∧ compose_command envfileCfg ["docker-compose"]
          ≠ claimedComposeCommand envfileCfg ["docker-compose"] false
      ∧ compose_command envfileCfg ["docker-compose"]
          ≠ claimedComposeCommand envfileCfg ["docker-compose"] true := by
  refine ⟨rfl, rfl, ?_, ?_, ?_⟩ <;> decide

/-- C2 as amended: for every environment spec the compose command is the
base invocation, then `-f <composefile>` (default `docker-compose.yml`),
then one flag/value pair per composeargs entry in insertion order, then
`up` and `-d`; the envfile field is never consulted and detached mode is
unconditional. -/
theorem C2_compose_command_shape (env_config : EnvConfig) (base : List String) :
    compose_command env_config base =
      base ++ ["-f", env_config.composefile.getD "docker-compose.yml"]
        ++ (env_config.composeargs.getD []).foldr
            (fun p acc => p.1 :: p.2 :: acc) []
        ++ ["up", "-d"] := by
  simp only [compose_command]
  cases hca : env_config.composeargs <;> simp [composeSeg, hca]

/-- C3 counterexample: on the spec `{tag: test:latest, registry:
myregistry.com}` the push step spawns the single command
`docker push myregistry.com/test:latest`, not the claimed tag-then-push
pair. -/
theorem C3_counterexample :
    (push_image (fun _ => true) pushCfg).1
        = [Cmd.argv ["docker", "push", "myregistry.com/test:latest"]]
      ∧ (push_image (fun _ => true) pushCfg).1
          ≠ claimedPushCommands "test:latest" "myregistry.com" := by
  refine ⟨rfl, ?_⟩
  decide

/-- C3 as amended: when both `tag` and `registry` are present the push step
spawns exactly the single command `docker push <registry>/<tag>`; when
either is absent it spawns nothing and signals no error (and no warning is
emitted — the skip is silent). -/
theorem C3_push_step (oracle : Cmd → Bool) (env_config : EnvConfig) :
    (∀ t r, env_config.tag = some t → env_config.registry = some r →
        (push_image oracle env_config).1
          = [Cmd.argv ["docker", "push", r ++ "/" ++ t]])
    ∧ ((env_config.tag = none ∨ env_config.registry = none) →
        push_image oracle env_config = ([], none)) := by
  constructor
  · intro t r ht hr
    simp only [push_image, ht, hr, runCmd]
    split <;> rfl
  · intro h
    rcases h with h | h <;>
      cases htg : env_config.tag <;> cases hrg : env_config.registry <;>
      simp_all [push_image]

/-- Witness for C3: the amended statement applied to the concrete spec
`{tag: test:latest, registry: myregistry.com}`. -/
theorem C3_push_step_witness :
    (push_image (fun _ => true) pushCfg).1
      = [Cmd.argv ["docker", "push", "myregistry.com/test:latest"]] := by
  have h := (C3_push_step (fun _ => true) pushCfg).1 "test:latest" "myregistry.com" rfl rfl
  exact h.trans (by decide)

/-- C6: when the Dockerfile (for the build step) or the compose file (for
the compose step) does not exist, the step signals the missing file and
spawns no external process at all. -/
theorem C6_missing_file (fs : String → Bool) (oracle : Cmd → Bool)
    (env_config : EnvConfig) (no_cache : Bool) (base : List String) :
    (fs (env_config.dockerfile.getD "Dockerfile") = false →
      build_image fs oracle env_config no_cache =
        ([], some (.fileNotFound (env_config.dockerfile.getD "Dockerfile"))))
    ∧ (fs (env_config.composefile.getD "docker-compose.yml") = false →
      run_compose fs oracle env_config base =
        ([], some (.fileNotFound (env_config.composefile.getD "docker-compose.yml")))) := by
  constructor
  · intro h
    simp [build_image, h]
  · intro h
    simp [run_compose, h]

/-- Witness for C6: on an empty filesystem the build step reports the
missing default Dockerfile and the compose step the missing default compose
file, each spawning nothing. -/
theorem C6_missing_file_witness :
    build_image (fun _ => false) (fun _ => true) {} false
        = ([], some (.fileNotFound "Dockerfile"))
      ∧ run_compose (fun _ => false) (fun _ => true) {} ["docker-compose"]
        = ([], some (.fileNotFound "docker-compose.yml")) :=
  ⟨(C6_missing_file (fun _ => false) (fun _ => true) {} false ["docker-compose"]).1 rfl,
   (C6_missing_file (fun _ => false) (fun _ => true) {} false ["docker-compose"]).2 rfl⟩

lemma lookupEnv_mem (config : Config) (name : String) (spec : EnvConfig)
    (hmem : (name, spec) ∈ config) (hnodup : (config.map Prod.fst).Nodup) :
    lookupEnv config name = some spec := by
  induction config with
  | nil => cases hmem
  | cons p rest ih =>
    obtain ⟨k, v⟩ := p
    rw [List.map_cons] at hnodup
    have hnd := List.nodup_cons.mp hnodup
    rcases List.mem_cons.mp hmem with h | h
    · injection h with h1 h2
      subst h1
      subst h2
      simp [lookupEnv]
    · have hk : k ≠ name := by
        rintro rfl
        exact hnd.1 (List.mem_map.mpr ⟨(k, spec), h, rfl⟩)
      simp [lookupEnv, hk, ih h hnd.2]

lemma lookupEnv_delKey_self (config : Config) (name : String) :
    lookupEnv (delKey config name) name = none := by
  induction config with
  | nil => rfl
  | cons p rest ih =>
    obtain ⟨k, v⟩ := p
    by_cases hk : k = name
    · simp [delKey, hk, ih]
    · simp [delKey, hk, lookupEnv, ih]

lemma lookupEnv_delKey_other (config : Config) (name m : String) (h : m ≠ name) :
    lookupEnv (delKey config name) m = lookupEnv config m := by
  induction config with
  | nil => rfl
  | cons p rest ih =>
    obtain ⟨k, v⟩ := p
    by_cases hk : k = name
    · subst hk
      have hkm : ¬ (k = m) := fun e => h e.symm
      simp [delKey, lookupEnv, hkm, ih]
    · by_cases hkm : k = m
      · simp [delKey, hk, lookupEnv, hkm, h]
      · simp [delKey, hk, lookupEnv, hkm, ih]

lemma hasKey_delKey (config : Config) (name : String) :
    hasKey (delKey config name) name = false := by
  induction config with
  | nil => rfl
  | cons p rest ih =>
    obtain ⟨k, v⟩ := p
    by_cases hk : k = name
    · simp [delKey, hk, ih]
    · simp [delKey, hk, hasKey, hk, ih]

lemma hasKey_false_lookup (config : Config) (name : String)
    (h : hasKey config name = false) : lookupEnv config name = none := by
  induction config with
  | nil => rfl
  | cons p rest ih =>
    obtain ⟨k, v⟩ := p
    simp only [hasKey, Bool.or_eq_false_iff, beq_eq_false_iff_ne, ne_eq] at h
    simp [lookupEnv, h.1, ih h.2]

/-- C4: when the requested name is a key of the environments mapping (keys
are unique in a dict), the lookup returns exactly the stored spec; when it
is absent, the run exits with code 1 having spawned no build, compose, or
push command. -/
theorem C4_resolve (fs : String → Bool) (oracle : Cmd → Bool) (config : Config)
    (args : Args) (base : List String) (name : String)
    (hl : args.list = false) (hr : args.remove = none)
    (he : args.environment = some name) :
    (∀ spec, (name, spec) ∈ config → (config.map Prod.fst).Nodup →
        lookupEnv config name = some spec)
    ∧ (lookupEnv config name = none →
        mainRun fs oracle config args base =
          { config := config, spawned := [], err := some (.exitCode 1) }) := by
  constructor
  · intro spec hmem hnodup
    exact lookupEnv_mem config name spec hmem hnodup
  · intro h
    simp [mainRun, hl, hr, he, h]

/-- Witness for C4: lookup of a stored environment returns its spec, and a
missing name makes the run exit 1 with nothing spawned. -/
theorem C4_resolve_witness :
    lookupEnv demoConfig "test" = some pushCfg
      ∧ mainRun (fun _ => true) (fun _ => true) demoConfig
          { environment := some "missing" } ["docker-compose"]
        = { config := demoConfig, spawned := [], err := some (.exitCode 1) } := by
  constructor
  · exact (C4_resolve (fun _ => true) (fun _ => true) demoConfig
      { environment := some "test" } ["docker-compose"] "test" rfl rfl rfl).1
      pushCfg (by decide) (by decide)
  · exact (C4_resolve (fun _ => true) (fun _ => true) demoConfig
      { environment := some "missing" } ["docker-compose"] "missing" rfl rfl rfl).2
      (by decide)

/-- C7: removing a stored environment name deletes exactly that key (its
lookup becomes `none`), leaves every other key's spec unchanged, reports
success, and removing the same name again reports "not found" while leaving
the configuration unchanged. -/
theorem C7_remove_env (config : Config) (name : String) :
    lookupEnv (removeEnv config name).1 name = none
    ∧ (∀ m, m ≠ name → lookupEnv (removeEnv config name).1 m = lookupEnv config m)
    ∧ (hasKey config name = true → (removeEnv config name).2 = true)
    ∧ removeEnv (removeEnv config name).1 name = ((removeEnv config name).1, false) := by
  by_cases h : hasKey config name = true
  · refine ⟨?_, ?_, ?_, ?_⟩
    · simp [removeEnv, h, lookupEnv_delKey_self]
    · intro m hm
      simp [removeEnv, h, lookupEnv_delKey_other config name m hm]
    · intro _
      simp [removeEnv, h]
    · simp [removeEnv, h, hasKey_delKey]
  · have h' : hasKey config name = false := by simpa using h
    refine ⟨?_, ?_, ?_, ?_⟩
    · simp [removeEnv, h', hasKey_false_lookup config name h']
    · intro m hm
      simp [removeEnv, h']
    · intro hc
      rw [hc] at h'
      cases h'
    · simp [removeEnv, h']

/-- Witness for C7: removing `"test"` from the two-environment demo
configuration. -/
theorem C7_remove_env_witness :
    (removeEnv demoConfig "test").1 = [("other", {})]
      ∧ lookupEnv (removeEnv demoConfig "test").1 "test" = none
      ∧ lookupEnv (removeEnv demoConfig "test").1 "other" = lookupEnv demoConfig "other"
      ∧ (removeEnv demoConfig "test").2 = true
      ∧ removeEnv (removeEnv demoConfig "test").1 "test"
        = ((removeEnv demoConfig "test").1, false) :=
  ⟨by decide, (C7_remove_env demoConfig "test").1,
   (C7_remove_env demoConfig "test").2.1 "other" (by decide),
   (C7_remove_env demoConfig "test").2.2.1 (by decide),
   (C7_remove_env demoConfig "test").2.2.2⟩

/-- C8: when the Dockerfile exists and the buildargs parse as KEY=VALUE
pairs whose keys omit the required `BUILD_ENV`, the build step fails with
the missing-variable KeyError and spawns no external process. -/
theorem C8_required_build_arg (fs : String → Bool) (oracle : Cmd → Bool)
    (env_config : EnvConfig) (no_cache : Bool)
    (pairs : List (List Char × List Char))
    (hfs : fs (env_config.dockerfile.getD "Dockerfile") = true)
    (hp : parseBuildArgs (env_config.buildargs.getD []) = .ok pairs)
    (hmem : "BUILD_ENV".toList ∉ pairs.map Prod.fst) :
    build_image fs oracle env_config no_cache = ([], some (.keyError "BUILD_ENV")) := by
  simp only [build_image, hfs, hp, Bool.true_eq_false, if_false]
  rw [if_neg hmem]

/-- Witness for C8: buildargs `["FOO=1"]` parse but lack `BUILD_ENV`. -/
theorem C8_required_build_arg_witness :
    build_image (fun _ => true) (fun _ => true) fooCfg false
      = ([], some (.keyError "BUILD_ENV")) :=
  C8_required_build_arg (fun _ => true) (fun _ => true) fooCfg false
    [("FOO".toList, "1".toList)] rfl rfl (by decide)

lemma splitOnEq_no_eq (cs : List Char) (h : '=' ∉ cs) : splitOnEq cs = [cs] := by
  induction cs with
  | nil => rfl
  | cons c rest ih =>
    have hc : c ≠ '=' := by
      rintro rfl
      exact h (List.mem_cons_self _ _)
    have hr : '=' ∉ rest := fun hm => h (List.mem_cons_of_mem c hm)
    simp [splitOnEq, hc, ih hr]

lemma parseBuildArgs_error {args : List String} {a : String}
    (ha : a ∈ args) (hbad : '=' ∉ a.toList) :
    parseBuildArgs args = .error .indexError := by
  induction args with
  | nil => cases ha
  | cons b t ih =>
    rcases List.mem_cons.mp ha with rfl | hmem
    · have hsplit := splitOnEq_no_eq a.toList hbad
      simp only [parseBuildArgs]
      rw [hsplit]
    · have ht := ih hmem
      simp only [parseBuildArgs]
      rcases hs : splitOnEq b.toList with _ | ⟨k, _ | ⟨v, rest⟩⟩ <;> simp [ht]

/-- C9: a buildargs entry with no `'='` makes the build step fail with the
unguarded IndexError of `arg.split('=')[1]` — an error distinct from the
missing-required-variable KeyError — before any build command is
constructed or spawned. -/
theorem C9_malformed_buildarg (fs : String → Bool) (oracle : Cmd → Bool)
    (env_config : EnvConfig) (no_cache : Bool) (a : String)
    (hfs : fs (env_config.dockerfile.getD "Dockerfile") = true)
    (ha : a ∈ env_config.buildargs.getD [])
    (heq : '=' ∉ a.toList) :
    build_image fs oracle env_config no_cache = ([], some .indexError)
      ∧ Err.indexError ≠ Err.keyError "BUILD_ENV" := by
  refine ⟨?_, by decide⟩
  simp [build_image, hfs, parseBuildArgs_error ha heq]

/-- Witness for C9: the entry `"NOEQUALS"` aborts the build step with the
IndexError. -/
theorem C9_malformed_buildarg_witness :
    build_image (fun _ => true) (fun _ => true) badArgCfg false
      = ([], some .indexError) :=
  (C9_malformed_buildarg (fun _ => true) (fun _ => true) badArgCfg false
    "NOEQUALS" rfl (by decide) (by decide)).1

/-- C10: the `--platform` CLI flag is parsed but never read — two runs on
the same configuration and environment that differ only in that flag's value
or presence produce the same persisted configuration, the same spawned
commands, and the same outcome. -/
theorem C10_platform_flag_no_effect (fs : String → Bool) (oracle : Cmd → Bool)
    (config : Config) (args : Args) (base : List String) (p : Option String) :
    mainRun fs oracle config { args with platform := p } base
      = mainRun fs oracle config args base := by
  cases args
  rfl

lemma mem_dropLast {α : Type} (l : List α) (x : α) (hx : x ∈ l.dropLast) :
    x ∈ l := by
  induction l with
  | nil => cases hx
  | cons a t ih =>
    cases t with
    | nil => cases hx
    | cons b t' =>
      rcases List.mem_cons.mp hx with rfl | h
      · exact List.mem_cons_self _ _
      · exact List.mem_cons_of_mem a (ih h)

lemma mem_dropLast_cons {α : Type} (a x : α) (l : List α)
    (hx : x ∈ (a :: l).dropLast) : x = a ∨ x ∈ l.dropLast := by
  cases l with
  | nil => cases hx
  | cons b t => exact List.mem_cons.mp hx

lemma mem_dropLast_append {α : Type} (l1 l2 : List α) (x : α)
    (hx : x ∈ (l1 ++ l2).dropLast) : x ∈ l1 ∨ x ∈ l2.dropLast := by
  induction l1 with
  | nil => exact Or.inr hx
  | cons a t ih =>
    rcases mem_dropLast_cons a x (t ++ l2) hx with rfl | h
    · exact Or.inl (List.mem_cons_self _ _)
    · rcases ih h with h1 | h2
      · exact Or.inl (List.mem_cons_of_mem a h1)
      · exact Or.inr h2

lemma stepOK_nil (oracle : Cmd → Bool) (e : Option Err) : StepOK oracle ([], e) := by
  constructor
  · intro c hc
    cases hc
  · intro _ c hc
    cases hc

lemma stepOK_single (oracle : Cmd → Bool) (c : Cmd) (e : Option Err)
    (h : e = none → oracle c = true) : StepOK oracle ([c], e) := by
  constructor
  · intro x hx
    cases hx
  · intro he x hx
    have hxc := List.mem_singleton.mp hx
    subst hxc
    exact h he

lemma runCmd_ok (oracle : Cmd → Bool) (c : Cmd) : StepOK oracle (runCmd oracle c) := by
  unfold runCmd
  by_cases h : oracle c = true
  · rw [if_pos h]
    exact stepOK_single _ _ _ (fun _ => h)
  · rw [if_neg h]
    exact stepOK_single _ _ _ (fun he => nomatch he)

lemma exec_ok (oracle : Cmd → Bool) (cmds : List String) :
    StepOK oracle (execute_commands oracle cmds) := by
  induction cmds with
  | nil => exact stepOK_nil _ _
  | cons c t ih =>
    simp only [execute_commands]
    by_cases h : oracle (.shell c) = true
    · rw [if_pos h]
      constructor
      · intro x hx
        rcases mem_dropLast_cons _ x _ hx with rfl | h2
        · exact h
        · exact ih.1 x h2
      · intro he x hx
        rcases List.mem_cons.mp hx with rfl | h2
        · exact h
        · exact ih.2 he x h2
    · rw [if_neg h]
      exact stepOK_single _ _ _ (fun he => nomatch he)

lemma hookStep_ok (oracle : Cmd → Bool) (o : Option (List String)) :
    StepOK oracle (hookStep oracle o) := by
  cases o
  · exact stepOK_nil _ _
  · exact exec_ok _ _

lemma build_image_ok (fs : String → Bool) (oracle : Cmd → Bool)
    (cfg : EnvConfig) (nc : Bool) : StepOK oracle (build_image fs oracle cfg nc) := by
  simp only [build_image]
  split
  · exact stepOK_nil _ _
  · split
    · exact stepOK_nil _ _
    · split
      · exact runCmd_ok _ _
      · exact stepOK_nil _ _

lemma run_compose_ok (fs : String → Bool) (oracle : Cmd → Bool)
    (cfg : EnvConfig) (base : List String) :
    StepOK oracle (run_compose fs oracle cfg base) := by
  simp only [run_compose]
  split
  · exact stepOK_nil _ _
  · exact runCmd_ok _ _

lemma push_image_ok (oracle : Cmd → Bool) (cfg : EnvConfig) :
    StepOK oracle (push_image oracle cfg) := by
  simp only [push_image]
  split
  · exact runCmd_ok _ _
  · exact stepOK_nil _ _

lemma composeStep_ok (fs : String → Bool) (oracle : Cmd → Bool)
    (cfg : EnvConfig) (args : Args) (base : List String) :
    StepOK oracle (composeStep fs oracle cfg args base) := by
  unfold composeStep
  split
  · exact run_compose_ok _ _ _ _
  · exact stepOK_nil _ _

lemma pushStep_ok (oracle : Cmd → Bool) (cfg : EnvConfig) (args : Args) :
    StepOK oracle (pushStep oracle cfg args) := by
  unfold pushStep
  split
  · exact push_image_ok _ _
  · exact stepOK_nil _ _

lemma interactive_shell_ok (oracle : Cmd → Bool) (cfg : EnvConfig) :
    StepOK oracle (interactive_shell oracle cfg) := by
  simp only [interactive_shell]
  split
  · split
    · exact stepOK_nil _ _
    · split
      · next h => exact stepOK_single _ _ _ (fun _ => h)
      · exact stepOK_single _ _ _ (fun he => nomatch he)
  · exact stepOK_nil _ _

lemma seqStep_ok (oracle : Cmd → Bool) (a : StepRes) (k : Unit → StepRes)
    (ha : StepOK oracle a) (hk : StepOK oracle (k ())) :
    StepOK oracle (seqStep a k) := by
  obtain ⟨cs, e⟩ := a
  cases e with
  | none =>
    have hall : ∀ c ∈ cs, oracle c = true := ha.2 rfl
    constructor
    · intro c hc
      simp only [seqStep] at hc
      rcases mem_dropLast_append cs (k ()).1 c hc with h1 | h2
      · exact hall c h1
      · exact hk.1 c h2
    · intro h2 c hc
      simp only [seqStep] at hc h2
      rcases List.mem_append.mp hc with h1 | h3
      · exact hall c h1
      · exact hk.2 h2 c h3
  | some e =>
    constructor
    · intro c hc
      simp only [seqStep] at hc
      exact ha.1 c hc
    · intro h2
      simp only [seqStep] at h2
      cases h2

lemma mainPipeline_ok (fs : String → Bool) (oracle : Cmd → Bool)
    (cfg : EnvConfig) (args : Args) (base : List String) :
    StepOK oracle (mainPipeline fs oracle cfg args base) := by
  unfold mainPipeline
  exact seqStep_ok oracle _ _ (hookStep_ok oracle cfg.pre_build)
    (seqStep_ok oracle _ _ (build_image_ok fs oracle cfg (args.no_cache || cfg.no_cache))
      (seqStep_ok oracle _ _ (composeStep_ok fs oracle cfg args base)
        (seqStep_ok oracle _ _ (pushStep_ok oracle cfg args)
          (seqStep_ok oracle _ _ (hookStep_ok oracle cfg.post_build)
            (interactive_shell_ok oracle cfg)))))

lemma seqStep_none (a : StepRes) (k : Unit → StepRes)
    (h : (seqStep a k).2 = none) :
    a.2 = none ∧ (k ()).2 = none ∧ (seqStep a k).1 = a.1 ++ (k ()).1 := by
  obtain ⟨cs, e⟩ := a
  cases e with
  | none => exact ⟨rfl, h, rfl⟩
  | some e => simp [seqStep] at h

lemma exec_none (oracle : Cmd → Bool) (cmds : List String)
    (h : (execute_commands oracle cmds).2 = none) :
    (execute_commands oracle cmds).1 = cmds.map Cmd.shell := by
  induction cmds with
  | nil => rfl
  | cons c t ih =>
    by_cases hc : oracle (.shell c) = true
    · simp only [execute_commands, hc, if_pos] at h ⊢
      rw [List.map_cons, ih h]
    · simp [execute_commands, hc] at h

lemma hookStep_none (oracle : Cmd → Bool) (o : Option (List String))
    (h : (hookStep oracle o).2 = none) :
    (hookStep oracle o).1 = (o.getD []).map Cmd.shell := by
  cases o with
  | none => rfl
  | some cmds => exact exec_none oracle cmds h

lemma runCmd_fst (oracle : Cmd → Bool) (c : Cmd) : (runCmd oracle c).1 = [c] := by
  unfold runCmd
  split <;> rfl

lemma build_image_none (fs : String → Bool) (oracle : Cmd → Bool)
    (cfg : EnvConfig) (nc : Bool)
    (h : (build_image fs oracle cfg nc).2 = none) :
    (build_image fs oracle cfg nc).1 = [Cmd.argv (build_command cfg nc)] := by
  by_cases hfs : fs (cfg.dockerfile.getD "Dockerfile") = false
  · simp [build_image, hfs] at h
  · rcases hp : parseBuildArgs (cfg.buildargs.getD []) with e | pairs
    · simp [build_image, hfs, hp] at h
    · simp only [build_image, hfs, hp, Bool.true_eq_false, if_false] at h ⊢
      split at h
      · next hm => rw [if_pos hm, runCmd_fst]
      · simp at h

lemma run_compose_none (fs : String → Bool) (oracle : Cmd → Bool)
    (cfg : EnvConfig) (base : List String)
    (h : (run_compose fs oracle cfg base).2 = none) :
    (run_compose fs oracle cfg base).1 = [Cmd.argv (compose_command cfg base)] := by
  by_cases hfs : fs (cfg.composefile.getD "docker-compose.yml") = false
  · simp [run_compose, hfs] at h
  · simp only [run_compose]
    rw [if_neg hfs, runCmd_fst]

lemma composeStep_none (fs : String → Bool) (oracle : Cmd → Bool)
    (cfg : EnvConfig) (args : Args) (base : List String)
    (h : (composeStep fs oracle cfg args base).2 = none) :
    (composeStep fs oracle cfg args base).1 =
      (if !args.buildonly && !cfg.buildonly
       then [Cmd.argv (compose_command cfg base)] else []) := by
  by_cases hb : (!args.buildonly && !cfg.buildonly) = true
  · simp only [composeStep, hb, if_pos] at h ⊢
    exact run_compose_none fs oracle cfg base h
  · simp [composeStep, hb]

lemma push_image_fst (oracle : Cmd → Bool) (cfg : EnvConfig) :
    (push_image oracle cfg).1 = push_command cfg := by
  rcases htg : cfg.tag with _ | t <;> rcases hrg : cfg.registry with _ | r <;>
    simp only [push_image, push_command, htg, hrg, runCmd] <;>
    first
      | rfl
      | (split <;> rfl)

lemma pushStep_none (oracle : Cmd → Bool) (cfg : EnvConfig) (args : Args) :
    (pushStep oracle cfg args).1 =
      (if args.push || cfg.push then push_command cfg else []) := by
  by_cases hb : (args.push || cfg.push) = true
  · simp only [pushStep, hb, if_pos]
    exact push_image_fst oracle cfg
  · simp [pushStep, hb]

lemma interactive_shell_none (oracle : Cmd → Bool) (cfg : EnvConfig)
    (h : (interactive_shell oracle cfg).2 = none) :
    (interactive_shell oracle cfg).1 =
      (if cfg.interactive
       then [Cmd.argv ["docker", "exec", "-ti", cfg.container.getD "", "bash"]]
       else []) := by
  by_cases hi : cfg.interactive = true
  · by_cases hcn : cfg.container.getD "" = ""
    · simp [interactive_shell, hi, hcn] at h
    · by_cases ho : oracle (.argv ["docker", "exec", "-ti", cfg.container.getD "", "bash"]) = true
      · simp [interactive_shell, hi, hcn, ho]
      · simp [interactive_shell, hi, hcn, ho] at h
  · simp [interactive_shell, hi]

/-- C5: the pipeline's spawned commands follow the fixed order pre-build
hooks, image build, compose up (unless build-only by flag or spec), push
(if requested by flag or spec), post-build hooks, interactive shell (if
requested) — on a fully successful run the spawned list is exactly that
concatenation; and failures are fatal: every spawned command except
possibly the last succeeded (nothing ever runs after a failed command),
while a normally-completed run spawned only successful commands. -/
theorem C5_pipeline_order (fs : String → Bool) (oracle : Cmd → Bool)
    (env_config : EnvConfig) (args : Args) (base : List String) :
    ((mainPipeline fs oracle env_config args base).2 = none →
      (mainPipeline fs oracle env_config args base).1 =
        (env_config.pre_build.getD []).map Cmd.shell
          ++ [Cmd.argv (build_command env_config (args.no_cache || env_config.no_cache))]
          ++ (if !args.buildonly && !env_config.buildonly
              then [Cmd.argv (compose_command env_config base)] else [])
          ++ (if args.push || env_config.push then push_command env_config else [])
          ++ (env_config.post_build.getD []).map Cmd.shell
          ++ (if env_config.interactive
              then [Cmd.argv ["docker", "exec", "-ti", env_config.container.getD "", "bash"]]
              else []))
    ∧ (∀ c ∈ (mainPipeline fs oracle env_config args base).1.dropLast, oracle c = true)
    ∧ ((mainPipeline fs oracle env_config args base).2 = none →
        ∀ c ∈ (mainPipeline fs oracle env_config args base).1, oracle c = true) := by
  refine ⟨?_, (mainPipeline_ok fs oracle env_config args base).1,
    (mainPipeline_ok fs oracle env_config args base).2⟩
  intro h
  unfold mainPipeline at h ⊢
  obtain ⟨h1, hrest1, e1⟩ := seqStep_none _ _ h
  obtain ⟨h2, hrest2, e2⟩ := seqStep_none _ _ hrest1
  obtain ⟨h3, hrest3, e3⟩ := seqStep_none _ _ hrest2
  obtain ⟨h4, hrest4, e4⟩ := seqStep_none _ _ hrest3
  obtain ⟨h5, h6, e5⟩ := seqStep_none _ _ hrest4
  rw [e1, e2, e3, e4, e5,
    hookStep_none oracle env_config.pre_build h1,
    build_image_none fs oracle env_config (args.no_cache || env_config.no_cache) h2,
    composeStep_none fs oracle env_config args base h3,
    pushStep_none oracle env_config args,
    hookStep_none oracle env_config.post_build h5,
    interactive_shell_none oracle env_config h6]
  simp [List.append_assoc]

/-- Witness for C5: a fully successful run on a spec with pre/post hooks,
required buildargs and a tag spawns, in order, the pre hook, the build
command, the compose command, and the post hook. -/
theorem C5_pipeline_order_witness :
    (mainPipeline (fun _ => true) (fun _ => true) pipelineCfg {} ["docker-compose"]).1 =
      [Cmd.shell "echo pre",
       Cmd.argv ["docker", "build", "-f", "Dockerfile", "--build-arg", "BUILD_ENV=test",
                 "-t", "test:latest", "."],
       Cmd.argv ["docker-compose", "-f", "docker-compose.yml", "up", "-d"],
       Cmd.shell "echo post"] := by
  have h := (C5_pipeline_order (fun _ => true) (fun _ => true) pipelineCfg {}
    ["docker-compose"]).1 (by decide)
  exact h.trans (by decide)

end DockerBuilderHelper
